import Mathlib

/-!
Verification of the libclang-style incremental parse / rewrite core described
by this repository's specification, against its test corpus
(`clang/unittests/libclang/LibclangTest.cpp`).  The repository ships only the
test corpus; the engines under test (RewriteEngine, ReparseEngine,
SerializationEngine, LocationResolver, ASTIndex traversal) are modelled here
from the specification's algorithm descriptions, as noted on each definition.
-/

namespace Spec2Proof

/-! ## Source buffers and positions (RewriteEngine support)

Modelled from the spec: a SourceBuffer is addressable by line/column/offset;
line and column are 1-based and convertible to a raw offset via the buffer's
line-offset index. -/

/-- Offset (0-based) of the first character of 1-based line `ln` in `cs`.
Modelled from the spec: the SourceBuffer owns a line-offset index computed
from content; line numbers are 1-based. -/
def lineStartOffset : List Char → Nat → Nat
  | _, 0 => 0
  | _, 1 => 0
  | [], _ + 2 => 0
  | c :: cs, n + 2 =>
    if c = '\n' then 1 + lineStartOffset cs (n + 1)
    else 1 + lineStartOffset cs (n + 2)

/-- Raw offset of 1-based (line, column) in `content`.
Modelled from the spec: Position (line ≥ 1, column ≥ 1) is convertible to a
raw offset via the buffer's line-offset index. -/
def offsetOfPos (content : String) (line col : Nat) : Nat :=
  lineStartOffset content.data line + (col - 1)

/-! ## RewriteEngine

Modelled from the spec (the RewriteEngine implementation is not in `src/`,
only its tests): an EditOp is one of Replace(Range, text), Insert(Position,
text), Remove(Range); all three are represented uniformly as a half-open
offset range `[start, stop)` plus the text substituted for it (Insert has
`start = stop`, Remove has empty text).  Commit sorts ops by start offset,
rejects overlap (adjacency allowed), and walks the original content once,
copying unedited spans verbatim and substituting each op's text, all offsets
computed against the original content. -/

structure EditOp where
  start : Nat
  stop : Nat
  text : List Char
deriving DecidableEq

/-- `clang_CXRewriter_replaceText`: stage replacement of `[b, e)` by `t`. -/
def replaceText (b e : Nat) (t : String) : EditOp := ⟨b, e, t.data⟩

/-- `clang_CXRewriter_insertTextBefore`: stage insertion of `t` before offset `p`. -/
def insertTextBefore (p : Nat) (t : String) : EditOp := ⟨p, p, t.data⟩

/-- `clang_CXRewriter_removeText`: stage removal of `[b, e)`. -/
def removeText (b e : Nat) : EditOp := ⟨b, e, []⟩

/-- Insert one op into a list already sorted by start offset. -/
def insertOpByStart (o : EditOp) : List EditOp → List EditOp
  | [] => [o]
  | x :: xs => if o.start ≤ x.start then o :: x :: xs else x :: insertOpByStart o xs

/-- Commit step 1: sort the accumulated ops by start offset ascending. -/
def sortOpsByStart : List EditOp → List EditOp
  | [] => []
  | x :: xs => insertOpByStart x (sortOpsByStart xs)

/-- Commit steps 2–3 over ops sorted by start: single left-to-right pass from
position `pos` of the original `content`, copying unedited spans verbatim and
substituting each op's text; `none` (the `OverlappingEdits` failure) when an
op starts before the previous op's stop or has an invalid range.  Adjacency
(`pos = o.start`) is allowed. -/
def applySorted (content : List Char) : Nat → List EditOp → Option (List Char)
  | pos, [] => some (List.drop pos content)
  | pos, o :: rest =>
    if pos ≤ o.start ∧ o.start ≤ o.stop ∧ o.stop ≤ content.length then
      match applySorted content o.stop rest with
      | none => none
      | some tail =>
        some (List.take (o.start - pos) (List.drop pos content) ++ o.text ++ tail)
    else
      none

/-- Rewrite one buffer: the per-file part of `clang_CXRewriter_overwriteChangedFiles`
(sort, overlap check, single-pass splice), producing the new content. -/
def commitFile (content : String) (ops : List EditOp) : Option String :=
  (applySorted content.data 0 (sortOpsByStart ops)).map fun cs => String.mk cs

/-- The buffer used by the `LibclangRewriteTest` fixture. -/
def rewriteFixtureBuf : String := "int main() \x7b return 0; \x7d"

/-- Offset of (line 1, column 5) in the fixture buffer. -/
def rngB : Nat := offsetOfPos rewriteFixtureBuf 1 5

/-- Offset of (line 1, column 9) in the fixture buffer. -/
def rngE : Nat := offsetOfPos rewriteFixtureBuf 1 9

/-- Pointwise update of the modelled on-disk file system. -/
def updateFS (fs : String → String) (f : String) (c : String) : String → String :=
  fun g => if g = f then c else fs g

/-- Modelled from the spec (commit step 4 of `clang_CXRewriter_overwriteChangedFiles`,
whose implementation is not in `src/`): given the per-file write outcome
`writeOk`, overwrite each changed file's on-disk content with its new content
and return the count of files that failed to write together with the
resulting file system; one file's failure does not abort the batch. -/
def overwriteChangedFiles (writeOk : String → Bool) :
    (String → String) → List (String × String) → Nat × (String → String)
  | fs, [] => (0, fs)
  | fs, (f, newContent) :: rest =>
    let step :=
      overwriteChangedFiles writeOk
        (if writeOk f then updateFS fs f newContent else fs) rest
    (if writeOk f then step.1 else step.1 + 1, step.2)

/-! ## ReparseEngine

Modelled from the spec (the ReparseEngine implementation is not in `src/`):
`reparse(index, unsavedFiles)` fully re-derives Diagnostics from the current
file content (old diagnostics are discarded, not merged) and bumps the
ASTIndex's generation counter.  The front-end collaborator is modelled by the
member-lookup check the `Reparse` scenario exercises: the header declares the
members of `struct Foo`, the main file references members of `Foo`, and each
reference to an undeclared member yields one diagnostic. -/

/-- The current content of the files of the `Reparse` scenario, abstracted to
the semantic facts the diagnostic derivation consumes: the members the header
declares for `struct Foo` and the members the main file references. -/
structure FileState where
  headerMembers : List String
  mainRefs : List String
deriving DecidableEq

/-- Diagnostic derivation from current file content: one diagnostic per
referenced member the header does not declare. -/
def deriveDiagnostics (fs : FileState) : List String :=
  fs.mainRefs.filter fun r => !(fs.headerMembers.contains r)

/-- The observable translation-unit state: its Diagnostics and the generation
counter bumped on every successful reparse. -/
structure TranslationUnitState where
  diagnostics : List String
  generation : Nat
deriving DecidableEq

/-- Initial parse: derives the diagnostic set from current file content. -/
def parseTU (fs : FileState) : TranslationUnitState :=
  ⟨deriveDiagnostics fs, 0⟩

/-- `clang_reparseTranslationUnit`: re-derives the diagnostic set wholesale
from the current file content (discarding, never merging, the old set) and
bumps the generation counter. -/
def reparseTU (tu : TranslationUnitState) (fs : FileState) : TranslationUnitState :=
  ⟨deriveDiagnostics fs, tu.generation + 1⟩

/-- The broken state of the `Reparse` test: header declares only `bar`, the
main file references `bar` and `baz`. -/
def reparseScenarioBroken : FileState := ⟨["bar"], ["bar", "baz"]⟩

/-- The fixed state: the header rewritten to also declare `baz`. -/
def reparseScenarioFixed : FileState := ⟨["bar", "baz"], ["bar", "baz"]⟩

/-! ## SerializationEngine and token-kind classification

Modelled from the spec (the SerializationEngine and `clang_tokenize` are not
in `src/`): lexical classification of a token depends on the language
options (`class` is a keyword only in C++ modes), and the persisted form must
retain enough configuration (language standard, flags) to reproduce
tokenization-sensitive decisions after a load. -/

inductive CXTokenKindM
  | punctuation
  | keyword
  | identifier
  | litTok
  | comment
deriving DecidableEq

/-- The language configuration a translation unit was parsed under. -/
structure LangOptions where
  cplusplus : Bool
deriving DecidableEq

/-- Keywords of every supported language mode. -/
def baseKeywords : List String :=
  ["int", "void", "enum", "struct", "const", "volatile", "return", "extern"]

/-- Keywords only of C++ modes; `class` is an ordinary identifier in C. -/
def cplusplusKeywords : List String := ["class", "namespace", "using"]

/-- The keyword table selected by the language options. -/
def keywordsFor (lo : LangOptions) : List String :=
  baseKeywords ++ (if lo.cplusplus then cplusplusKeywords else [])

def isIdentStart (c : Char) : Bool := c.isAlpha || c = '_'

def isIdentChar (c : Char) : Bool := c.isAlphanum || c = '_'

def isSpaceChar (c : Char) : Bool := c = ' ' || c = '\n' || c = '\t'

/-- One lexer step per unit of fuel; fuel is the content length, and every
step consumes at least one character, so the fuel never runs out early. -/
def lexAux (lo : LangOptions) : Nat → List Char → List CXTokenKindM
  | 0, _ => []
  | _ + 1, [] => []
  | fuel + 1, c :: cs =>
    if isSpaceChar c then lexAux lo fuel cs
    else if isIdentStart c then
      (if (keywordsFor lo).contains (String.mk (c :: cs.takeWhile isIdentChar)) then
        CXTokenKindM.keyword
      else
        CXTokenKindM.identifier) :: lexAux lo fuel (cs.dropWhile isIdentChar)
    else if c.isDigit then
      CXTokenKindM.litTok :: lexAux lo fuel (cs.dropWhile Char.isDigit)
    else
      CXTokenKindM.punctuation :: lexAux lo fuel cs

/-- `clang_tokenize` over the whole translation-unit extent, reduced to the
kind sequence the test observes. -/
def tokenizeKinds (lo : LangOptions) (content : String) : List CXTokenKindM :=
  lexAux lo content.data.length content.data

/-- A parsed translation unit as the tokenization tests observe it: its main
content and the language options it was parsed under. -/
structure TokenTU where
  content : String
  opts : LangOptions
deriving DecidableEq

/-- The persisted form of a translation unit.  Modelled from the spec: it
retains enough configuration (language standard, flags) to reproduce
tokenization-sensitive decisions, not just the tree shape. -/
structure SerializedTU where
  content : String
  opts : LangOptions
deriving DecidableEq

/-- `clang_saveTranslationUnit`: flatten to the persisted form. -/
def saveTranslationUnit (tu : TokenTU) : SerializedTU := ⟨tu.content, tu.opts⟩

/-- Reconstruction of a translation unit from its persisted form, re-deriving
the language configuration from what the persisted form retained. -/
def loadTranslationUnit (ast : SerializedTU) : TokenTU := ⟨ast.content, ast.opts⟩

/-- Tokenize the translation-unit extent of a (fresh or reloaded) TU. -/
def tokenizeTU (tu : TokenTU) : List CXTokenKindM := tokenizeKinds tu.opts tu.content

/-- The `TokenKindsAreCorrectAfterLoading` fixture: `"enum class Something {};"`
parsed as C++11. -/
def serializationFixtureTU : TokenTU := ⟨"enum class Something \x7b\x7d;", ⟨true⟩⟩

/-! ## LocationResolver: skipped preprocessor ranges

Modelled from the spec (the preprocessor and `clang_getAllSkippedRanges` are
not in `src/`): every region between a false-evaluated conditional's
directive and its matching terminator is recorded as one SkippedRange per
contiguous disabled block, spanning from the opening directive line to the
closing directive line inclusive; nested skips collapse to the outer block;
ranges are returned in source order. -/

/-- One line of preprocessed source, reduced to what the skipped-range
computation inspects. -/
inductive PPLine
  | includeLine (file : String)
  | ifdefLine (mName : String)
  | endifLine
  | textLine
deriving DecidableEq

/-- A skipped range as the test observes it: the file it lies in and the
1-based spelling lines of its start and end. -/
structure SkippedRange where
  file : String
  startLine : Nat
  endLine : Nat
deriving DecidableEq

/-- Scan one file's lines from line `ln`.  The state is `none` outside a
disabled block and `some (s, d)` inside the block opened at line `s` with `d`
nested (collapsed) conditionals still open. -/
def skippedGo (defined : List String) : Nat → Option (Nat × Nat) → List PPLine → List (Nat × Nat)
  | _, _, [] => []
  | ln, none, PPLine.ifdefLine m :: rest =>
    if defined.contains m then skippedGo defined (ln + 1) none rest
    else skippedGo defined (ln + 1) (some (ln, 0)) rest
  | ln, none, _ :: rest => skippedGo defined (ln + 1) none rest
  | ln, some (s, d), PPLine.ifdefLine _ :: rest =>
    skippedGo defined (ln + 1) (some (s, d + 1)) rest
  | ln, some (s, d), PPLine.endifLine :: rest =>
    if d = 0 then (s, ln) :: skippedGo defined (ln + 1) none rest
    else skippedGo defined (ln + 1) (some (s, d - 1)) rest
  | ln, some sd, _ :: rest => skippedGo defined (ln + 1) (some sd) rest

/-- The skipped ranges contributed by one included file. -/
def fileSkippedRanges (defined : List String) (name : String) (lines : List PPLine) :
    List SkippedRange :=
  (skippedGo defined 1 none lines).map fun p => ⟨name, p.1, p.2⟩

/-- Scan the main file, expanding one level of includes from `env` in place
(included headers contain no further includes in this model), so the returned
ranges appear in source order. -/
def tuSkippedGo (defined : List String) (env : List (String × List PPLine)) (mainName : String) :
    Nat → Option (Nat × Nat) → List PPLine → List SkippedRange
  | _, _, [] => []
  | ln, none, PPLine.includeLine f :: rest =>
    (match env.lookup f with
     | some headerLines => fileSkippedRanges defined f headerLines
     | none => []) ++ tuSkippedGo defined env mainName (ln + 1) none rest
  | ln, none, PPLine.ifdefLine m :: rest =>
    if defined.contains m then tuSkippedGo defined env mainName (ln + 1) none rest
    else tuSkippedGo defined env mainName (ln + 1) (some (ln, 0)) rest
  | ln, none, _ :: rest => tuSkippedGo defined env mainName (ln + 1) none rest
  | ln, some (s, d), PPLine.ifdefLine _ :: rest =>
    tuSkippedGo defined env mainName (ln + 1) (some (s, d + 1)) rest
  | ln, some (s, d), PPLine.endifLine :: rest =>
    if d = 0 then SkippedRange.mk mainName s ln :: tuSkippedGo defined env mainName (ln + 1) none rest
    else tuSkippedGo defined env mainName (ln + 1) (some (s, d - 1)) rest
  | ln, some sd, _ :: rest => tuSkippedGo defined env mainName (ln + 1) (some sd) rest

/-- `clang_getAllSkippedRanges` for a translation unit whose main file is
`mainLines` and whose includes resolve through `env`. -/
def getAllSkippedRanges (defined : List String) (env : List (String × List PPLine))
    (mainName : String) (mainLines : List PPLine) : List SkippedRange :=
  tuSkippedGo defined env mainName 1 none mainLines

/-- The header of the `AllSkippedRanges` test: a false `#ifdef MANGOS` block
spanning lines 1–3. -/
def skippedHeaderLines : List PPLine :=
  [PPLine.ifdefLine ("MANGOS"), PPLine.textLine, PPLine.endifLine]

/-- The main file of the `AllSkippedRanges` test: the include at line 1 and a
false `#ifdef KIWIS` block spanning lines 2–4. -/
def skippedMainLines : List PPLine :=
  [PPLine.includeLine ("header.h"), PPLine.ifdefLine ("KIWIS"), PPLine.textLine,
   PPLine.endifLine]

/-! ## Type queries: `clang_getUnqualifiedType` / `clang_getNonReferenceType`

Modelled from the spec (the type-query implementations are not in `src/`):
both are pure functions over a Type value, defined as fixed-point removal of
the outermost qualifier/reference layer — `unqualified` strips
const/volatile/restrict, `nonReference` strips lvalue/rvalue reference, each
returning the underlying Type unchanged if no such layer is present. -/

inductive TypeQualifier
  | constQ
  | volatileQ
  | restrictQ
deriving DecidableEq

/-- A Type value with the layers the two queries inspect. -/
inductive CXTypeM
  | intTy
  | pointer (t : CXTypeM)
  | qualified (q : TypeQualifier) (t : CXTypeM)
  | lvalueReference (t : CXTypeM)
  | rvalueReference (t : CXTypeM)
deriving DecidableEq

/-- Whether the outermost layer carries a const/volatile/restrict qualifier
(the disjunction of `clang_isConstQualifiedType` and its two siblings). -/
def isQualifiedType : CXTypeM → Bool
  | CXTypeM.qualified _ _ => true
  | _ => false

/-- Whether the outermost layer is an lvalue or rvalue reference. -/
def isReferenceType : CXTypeM → Bool
  | CXTypeM.lvalueReference _ => true
  | CXTypeM.rvalueReference _ => true
  | _ => false

/-- `clang_getUnqualifiedType`: fixed-point removal of outermost qualifier
layers. -/
def getUnqualifiedType : CXTypeM → CXTypeM
  | CXTypeM.qualified _ t => getUnqualifiedType t
  | t => t

/-- `clang_getNonReferenceType`: fixed-point removal of outermost reference
layers. -/
def getNonReferenceType : CXTypeM → CXTypeM
  | CXTypeM.lvalueReference t => getNonReferenceType t
  | CXTypeM.rvalueReference t => getNonReferenceType t
  | t => t

/-! ## Cursor traversal: `clang_visitChildren`

Modelled from the spec (the traversal implementation is not in `src/`):
traversal is pre-order and synchronous; the visitor's per-call return signal
is one of Continue (next sibling), Recurse (descend then continue), Break
(abort the traversal entirely); each traversal call owns its own explicit
worklist (here: its own recursion over the cursor list), never shared mutable
cursor-position state, which is what makes nested `visitChildren` calls from
inside a visitor re-entrant. -/

inductive CXCursorKindM
  | translationUnit
  | functionDecl
  | compoundStmt
  | objcStringLiteral
  | parmDecl
  | otherKind
deriving DecidableEq

/-- A cursor: one AST node with its kind and children. -/
inductive CursorT where
  | node (kind : CXCursorKindM) (children : List CursorT)

def CursorT.kind : CursorT → CXCursorKindM
  | CursorT.node k _ => k

def CursorT.children : CursorT → List CursorT
  | CursorT.node _ cs => cs

inductive CXChildVisitResultM
  | visitBreak
  | visitContinue
  | visitRecurse
deriving DecidableEq

/-- Reference pre-order traversal driven by the signal function alone: the
cursors a traversal of `ts` visits, plus whether it ended in Break. -/
def visitSignals (f : CursorT → CXChildVisitResultM) :
    List CursorT → List CursorT × Bool
  | [] => ([], false)
  | CursorT.node k cs :: rest =>
    match f (CursorT.node k cs) with
    | CXChildVisitResultM.visitBreak => ([CursorT.node k cs], true)
    | CXChildVisitResultM.visitContinue =>
      let r := visitSignals f rest
      (CursorT.node k cs :: r.1, r.2)
    | CXChildVisitResultM.visitRecurse =>
      let r1 := visitSignals f cs
      if r1.2 then (CursorT.node k cs :: r1.1, true)
      else
        let r2 := visitSignals f rest
        (CursorT.node k cs :: r1.1 ++ r2.1, r2.2)

/-- `clang_visitChildren` over a worklist of cursors, with a client-data
state `σ` threaded through the visitor (the opaque `CXClientData` pointer):
returns the final client data, the visited cursors in order, and whether the
traversal ended in Break.  Each call runs its own recursion — a visitor body
may itself call this function on another cursor without touching the outer
call's worklist. -/
def visitChildrenList {σ : Type} (v : CursorT → σ → σ × CXChildVisitResultM) :
    List CursorT → σ → σ × (List CursorT × Bool)
  | [], s => (s, ([], false))
  | CursorT.node k cs :: rest, s =>
    let p := v (CursorT.node k cs) s
    match p.2 with
    | CXChildVisitResultM.visitBreak => (p.1, ([CursorT.node k cs], true))
    | CXChildVisitResultM.visitContinue =>
      let r := visitChildrenList v rest p.1
      (r.1, (CursorT.node k cs :: r.2.1, r.2.2))
    | CXChildVisitResultM.visitRecurse =>
      let r1 := visitChildrenList v cs p.1
      if r1.2.2 then (r1.1, (CursorT.node k cs :: r1.2.1, true))
      else
        let r2 := visitChildrenList v rest r1.1
        (r2.1, (CursorT.node k cs :: r1.2.1 ++ r2.2.1, r2.2.2))

/-- The AST of the `EvaluateChildExpression` test below the function
declaration: its body block contains a nested block whose statement is the
Objective-C string literal `kFOO` expands to. -/
def evalFixtureFuncDecl : CursorT :=
  CursorT.node CXCursorKindM.functionDecl
    [CursorT.node CXCursorKindM.compoundStmt
      [CursorT.node CXCursorKindM.compoundStmt
        [CursorT.node CXCursorKindM.objcStringLiteral []]]]

/-- The translation-unit cursor's children in the `EvaluateChildExpression`
test. -/
def evalFixtureTUChildren : List CursorT := [evalFixtureFuncDecl]

/-- The inner visitor of `EvaluateChildExpression`: counts compound
statements in its own client data, recursing until the second one, where it
evaluates the child expression and breaks. -/
def innerEvalVisitor : CursorT → Nat → Nat × CXChildVisitResultM := fun c n =>
  if c.kind = CXCursorKindM.compoundStmt then
    if n = 0 then (n + 1, CXChildVisitResultM.visitRecurse)
    else (n, CXChildVisitResultM.visitBreak)
  else (n, CXChildVisitResultM.visitRecurse)

/-- The outer visitor of `EvaluateChildExpression`: on a function
declaration it starts a nested `visitChildren` traversal (recording the
nested traversal's count and break flag in the outer client data) and then
continues; on every other cursor it just continues. -/
def outerEvalVisitor : CursorT → (Nat × Bool) → (Nat × Bool) × CXChildVisitResultM :=
  fun c st =>
    if c.kind = CXCursorKindM.functionDecl then
      let r := visitChildrenList innerEvalVisitor c.children 0
      ((r.1, r.2.2), CXChildVisitResultM.visitContinue)
    else (st, CXChildVisitResultM.visitContinue)

/-! ## Error paths of translation-unit creation

Modelled from the spec (the entry points are not in `src/`): null or
malformed input is detected before any work begins — `InvalidArguments` with
no partial mutation.  Out-parameters are modelled by returning the value the
call stores through them (`none` for a null write). -/

inductive CXErrorCodeM
  | success
  | failure
  | crashed
  | invalidArguments
  | astReadError
deriving DecidableEq

/-- An index handle, observable only through the options it was created
with. -/
structure CXIndexM where
  excludeDeclarationsFromPCH : Bool
  displayDiagnostics : Bool
deriving DecidableEq

/-- `clang_parseTranslationUnit2`: the null-argument check runs before the
front-end collaborator (`parserResult`, the outcome `parse` would produce) is
even consulted; a null index or null out-parameter yields
`CXError_InvalidArguments` and writes null through the out-parameter. -/
def clang_parseTranslationUnit2 (parserResult : Option TokenTU)
    (idx : Option CXIndexM) (_sourceFilename : Option String)
    (_args : List String) (_unsaved : List (String × String))
    (outProvided : Bool) : CXErrorCodeM × Option TokenTU :=
  if idx.isNone || !outProvided then (CXErrorCodeM.invalidArguments, none)
  else
    match parserResult with
    | some tu => (CXErrorCodeM.success, some tu)
    | none => (CXErrorCodeM.failure, none)

/-- `clang_createTranslationUnit2`: null index, null AST filename, or null
out-parameter is rejected up front with `CXError_InvalidArguments`, writing
null through the out-parameter before any AST file is read; otherwise the
persisted form is looked up and reloaded. -/
def clang_createTranslationUnit2 (astContents : String → Option SerializedTU)
    (idx : Option CXIndexM) (astFilename : Option String)
    (outProvided : Bool) : CXErrorCodeM × Option TokenTU :=
  if idx.isNone || astFilename.isNone || !outProvided then
    (CXErrorCodeM.invalidArguments, none)
  else
    match astFilename with
    | none => (CXErrorCodeM.invalidArguments, none)
    | some name =>
      match astContents name with
      | some ast => (CXErrorCodeM.success, some (loadTranslationUnit ast))
      | none => (CXErrorCodeM.astReadError, none)

/-- `clang_createTranslationUnit`: the result-less variant, returning what the
two-result variant writes through its out-parameter (null on any error). -/
def clang_createTranslationUnit (astContents : String → Option SerializedTU)
    (idx : Option CXIndexM) (astFilename : Option String) : Option TokenTU :=
  (clang_createTranslationUnit2 astContents idx astFilename true).2

/-- The write-outcome map of the commit witness scenario: writing `fail.cpp`
fails, every other write succeeds. -/
def c8WriteOk : String → Bool := fun f => if f = ("fail.cpp") then false else true

/-- The initial on-disk contents of the commit witness scenario. -/
def c8FS : String → String := fun _ => ""

/-- The changed files of the commit witness scenario with their new
contents. -/
def c8Changed : List (String × String) := [("ok.cpp", "NEW"), ("fail.cpp", "X")]

end Spec2Proof

namespace Spec2Proof

/-- C1: staging a single edit against the range (1,5)–(1,9) of
`"int main() { return 0; }"` and committing yields exactly the expected
content computed against the original text: replacement by `"MAIN"`, `"foo"`,
or `"patatino"`, insertion of `"ro"` before column 5, and removal of the
range, each produce the expected file content. -/
theorem C1_rewrite_commit_expected_contents :
    commitFile rewriteFixtureBuf [replaceText rngB rngE ("MAIN")] =
      some ("int MAIN() \x7b return 0; \x7d") ∧
    commitFile rewriteFixtureBuf [replaceText rngB rngE ("foo")] =
      some ("int foo() \x7b return 0; \x7d") ∧
    commitFile rewriteFixtureBuf [replaceText rngB rngE ("patatino")] =
      some ("int patatino() \x7b return 0; \x7d") ∧
    commitFile rewriteFixtureBuf [insertTextBefore rngB ("ro")] =
      some ("int romain() \x7b return 0; \x7d") ∧
    commitFile rewriteFixtureBuf [removeText rngB rngE] =
      some ("int () \x7b return 0; \x7d") := by
  decide

/-- Claim C2: with the header declaring only `bar` and the main file
referencing `foo.bar` and `foo.baz`, parsing and reparsing both yield a
Diagnostic count greater than 0; after the header is rewritten to declare
`baz` as well, reparsing yields count exactly 0 — and in general every
reparse fully re-derives the diagnostic set from the current file content,
never merging with the old set. -/
theorem C2_reparse_rederives_diagnostics :
    0 < (parseTU reparseScenarioBroken).diagnostics.length ∧
    0 < (reparseTU (parseTU reparseScenarioBroken) reparseScenarioBroken).diagnostics.length ∧
    (reparseTU (reparseTU (parseTU reparseScenarioBroken) reparseScenarioBroken)
      reparseScenarioFixed).diagnostics.length = 0 ∧
    ∀ (tu : TranslationUnitState) (fs : FileState),
      (reparseTU tu fs).diagnostics = deriveDiagnostics fs :=
  ⟨by decide, by decide, by decide, fun _ _ => rfl⟩

/-- Claim C3: reparsing immediately after a successful parse with identical
file content yields an observably identical Diagnostic set (two-run
determinism), in particular the same count; on the `Reparse` scenario that
count is 1 before and after the immediate reparse. -/
theorem C3_reparse_deterministic :
    (∀ (tu : TranslationUnitState) (fs : FileState),
      (reparseTU tu fs).diagnostics = (parseTU fs).diagnostics) ∧
    (reparseTU (parseTU reparseScenarioBroken) reparseScenarioBroken).diagnostics.length =
      (parseTU reparseScenarioBroken).diagnostics.length ∧
    (parseTU reparseScenarioBroken).diagnostics.length = 1 :=
  ⟨fun _ _ => rfl, rfl, by decide⟩

/-- Claim C4: tokenizing `"enum class Something {};"` (parsed as C++11)
yields the 6-token kind sequence Keyword, Keyword, Identifier, Punctuation,
Punctuation, Punctuation, both before and after a save-to-disk/load-from-disk
cycle; in general a save/load round trip preserves token-kind
classification. -/
theorem C4_token_kinds_preserved_after_loading :
    tokenizeTU serializationFixtureTU =
      [CXTokenKindM.keyword, CXTokenKindM.keyword, CXTokenKindM.identifier,
       CXTokenKindM.punctuation, CXTokenKindM.punctuation, CXTokenKindM.punctuation] ∧
    tokenizeTU (loadTranslationUnit (saveTranslationUnit serializationFixtureTU)) =
      tokenizeTU serializationFixtureTU ∧
    ∀ (tu : TokenTU),
      tokenizeTU (loadTranslationUnit (saveTranslationUnit tu)) = tokenizeTU tu :=
  ⟨by decide, rfl, fun _ => rfl⟩

/-- Claim C5: for the `AllSkippedRanges` translation unit — a header with a
false `#ifdef` block on lines 1–3 included at line 1 of a main file with a
false `#ifdef` block on lines 2–4 — the all-skipped-ranges query returns
exactly 2 ranges, in source order, each spanning from its opening directive's
line to its closing directive's line inclusive. -/
theorem C5_all_skipped_ranges :
    getAllSkippedRanges [] [("header.h", skippedHeaderLines)] ("main.cpp")
        skippedMainLines =
      [SkippedRange.mk ("header.h") 1 3, SkippedRange.mk ("main.cpp") 2 4] ∧
    (getAllSkippedRanges [] [("header.h", skippedHeaderLines)] ("main.cpp")
        skippedMainLines).length = 2 := by
  constructor
  · decide
  · decide

/-- Claim C9: translation-unit creation with null input fails up front with
`InvalidArguments` and no partial mutation: `clang_parseTranslationUnit2`
with a null index (and null source file and out-parameter) returns
`CXError_InvalidArguments` regardless of what the front end would produce;
`clang_createTranslationUnit` with null arguments returns a null translation
unit; `clang_createTranslationUnit2` with null arguments returns
`CXError_InvalidArguments` and writes null through the caller's
out-parameter — all regardless of the on-disk AST contents. -/
theorem C9_invalid_arguments_rejected_up_front :
    (∀ (parserResult : Option TokenTU),
      clang_parseTranslationUnit2 parserResult none none [] [] false =
        (CXErrorCodeM.invalidArguments, none)) ∧
    (∀ (astContents : String → Option SerializedTU),
      clang_createTranslationUnit astContents none none = none) ∧
    (∀ (astContents : String → Option SerializedTU),
      clang_createTranslationUnit2 astContents none none true =
        (CXErrorCodeM.invalidArguments, none)) :=
  ⟨fun _ => rfl, fun _ => rfl, fun _ => rfl⟩

/-- The result of `getUnqualifiedType` never carries a top qualifier layer. -/
lemma getUnqualifiedType_not_qualified (T : CXTypeM) :
    isQualifiedType (getUnqualifiedType T) = false := by
  induction T with
  | intTy => simp [getUnqualifiedType, isQualifiedType]
  | pointer t _ => simp [getUnqualifiedType, isQualifiedType]
  | qualified q t ih => simpa [getUnqualifiedType] using ih
  | lvalueReference t _ => simp [getUnqualifiedType, isQualifiedType]
  | rvalueReference t _ => simp [getUnqualifiedType, isQualifiedType]

/-- The result of `getNonReferenceType` never carries a top reference layer. -/
lemma getNonReferenceType_not_reference (T : CXTypeM) :
    isReferenceType (getNonReferenceType T) = false := by
  induction T with
  | intTy => simp [getNonReferenceType, isReferenceType]
  | pointer t _ => simp [getNonReferenceType, isReferenceType]
  | qualified q t _ => simp [getNonReferenceType, isReferenceType]
  | lvalueReference t ih => simpa [getNonReferenceType] using ih
  | rvalueReference t ih => simpa [getNonReferenceType] using ih

/-- A type with no top qualifier layer is returned unchanged. -/
lemma getUnqualifiedType_of_not_qualified (T : CXTypeM)
    (h : isQualifiedType T = false) : getUnqualifiedType T = T := by
  cases T <;> simp_all [isQualifiedType, getUnqualifiedType]

/-- A type with no top reference layer is returned unchanged. -/
lemma getNonReferenceType_of_not_reference (T : CXTypeM)
    (h : isReferenceType T = false) : getNonReferenceType T = T := by
  cases T <;> simp_all [isReferenceType, getNonReferenceType]

/-- Claim C6: `clang_getUnqualifiedType` returns a type carrying none of the
const/volatile/restrict qualifiers and `clang_getNonReferenceType` returns a
type that is neither an lvalue nor an rvalue reference; both are idempotent
and return the type unchanged when no such layer is present. -/
theorem C6_type_stripping_pure_idempotent (T : CXTypeM) :
    isQualifiedType (getUnqualifiedType T) = false ∧
    isReferenceType (getNonReferenceType T) = false ∧
    getUnqualifiedType (getUnqualifiedType T) = getUnqualifiedType T ∧
    getNonReferenceType (getNonReferenceType T) = getNonReferenceType T ∧
    (isQualifiedType T = false → getUnqualifiedType T = T) ∧
    (isReferenceType T = false → getNonReferenceType T = T) :=
  ⟨getUnqualifiedType_not_qualified T,
   getNonReferenceType_not_reference T,
   getUnqualifiedType_of_not_qualified _ (getUnqualifiedType_not_qualified T),
   getNonReferenceType_of_not_reference _ (getNonReferenceType_not_reference T),
   getUnqualifiedType_of_not_qualified T,
   getNonReferenceType_of_not_reference T⟩

/-- Concrete instance of claim C6 at the unqualified, non-reference type
`int`, discharging both residual-layer hypotheses. -/
theorem C6_type_stripping_witness :
    getUnqualifiedType CXTypeM.intTy = CXTypeM.intTy ∧
    getNonReferenceType CXTypeM.intTy = CXTypeM.intTy :=
  ⟨(C6_type_stripping_pure_idempotent CXTypeM.intTy).2.2.2.2.1 (by decide),
   (C6_type_stripping_pure_idempotent CXTypeM.intTy).2.2.2.2.2 (by decide)⟩

/-- The failure count of a commit equals the number of changed files whose
write failed. -/
lemma overwriteChangedFiles_count (writeOk : String → Bool) :
    ∀ (changed : List (String × String)) (fs : String → String),
      (overwriteChangedFiles writeOk fs changed).1 =
        (changed.filter fun p => !writeOk p.1).length := by
  intro changed
  induction changed with
  | nil => intro fs; rfl
  | cons hd rest ih =>
    intro fs
    obtain ⟨f, c⟩ := hd
    by_cases h : writeOk f <;>
      simp [overwriteChangedFiles, h, ih, List.filter_cons]

/-- A commit never touches the on-disk content of a file not in the batch. -/
lemma overwriteChangedFiles_untouched (writeOk : String → Bool) :
    ∀ (changed : List (String × String)) (fs : String → String) (f : String),
      f ∉ changed.map Prod.fst →
      (overwriteChangedFiles writeOk fs changed).2 f = fs f := by
  intro changed
  induction changed with
  | nil => intro fs f _; rfl
  | cons hd rest ih =>
    intro fs f hf
    obtain ⟨g, c⟩ := hd
    simp only [List.map_cons, List.mem_cons, not_or] at hf
    have hfs : ∀ fs' : String → String,
        (overwriteChangedFiles writeOk fs' ((g, c) :: rest)).2 =
          (overwriteChangedFiles writeOk
            (if writeOk g then updateFS fs' g c else fs') rest).2 := by
      intro fs'
      simp [overwriteChangedFiles]
    rw [hfs, ih _ _ hf.2]
    by_cases h : writeOk g <;> simp [h, updateFS, hf.1]

/-- With distinct file names, a commit writes each successfully written
file's new content, whatever happens to the other files. -/
lemma overwriteChangedFiles_writes (writeOk : String → Bool) :
    ∀ (changed : List (String × String)) (fs : String → String),
      (changed.map Prod.fst).Nodup →
      ∀ p ∈ changed, writeOk p.1 = true →
        (overwriteChangedFiles writeOk fs changed).2 p.1 = p.2 := by
  intro changed
  induction changed with
  | nil => intro fs _ p hp; exact absurd hp (List.not_mem_nil p)
  | cons hd rest ih =>
    intro fs hnd p hp hok
    obtain ⟨g, c⟩ := hd
    simp only [List.map_cons, List.nodup_cons] at hnd
    have hfs :
        (overwriteChangedFiles writeOk fs ((g, c) :: rest)).2 =
          (overwriteChangedFiles writeOk
            (if writeOk g then updateFS fs g c else fs) rest).2 := by
      simp [overwriteChangedFiles]
    rcases List.mem_cons.mp hp with hpe | hpr
    · subst hpe
      rw [hfs, overwriteChangedFiles_untouched writeOk rest _ _ hnd.1]
      simp only at hok
      simp [hok, updateFS]
    · exact hfs ▸ ih _ hnd.2 p hpr hok

/-- Claim C8: `clang_CXRewriter_overwriteChangedFiles` returns the count of
changed files whose on-disk write failed — 0 exactly when every changed file
was overwritten — and a single file's I/O failure does not abort the batch:
every successfully written file still receives its new content. -/
theorem C8_overwrite_reports_failure_count (writeOk : String → Bool)
    (fs : String → String) (changed : List (String × String)) :
    (overwriteChangedFiles writeOk fs changed).1 =
      (changed.filter fun p => !writeOk p.1).length ∧
    ((overwriteChangedFiles writeOk fs changed).1 = 0 ↔
      ∀ p ∈ changed, writeOk p.1 = true) ∧
    ((changed.map Prod.fst).Nodup →
      ∀ p ∈ changed, writeOk p.1 = true →
        (overwriteChangedFiles writeOk fs changed).2 p.1 = p.2) := by
  refine ⟨overwriteChangedFiles_count writeOk changed fs, ?_,
    fun hnd => overwriteChangedFiles_writes writeOk changed fs hnd⟩
  rw [overwriteChangedFiles_count writeOk changed fs]
  rw [List.length_eq_zero, List.filter_eq_nil_iff]
  simp

/-- Concrete instance of claim C8: a two-file batch in which `fail.cpp`
fails to write reports failure count 1 while `ok.cpp` still receives its new
content. -/
theorem C8_overwrite_witness :
    (overwriteChangedFiles c8WriteOk c8FS c8Changed).2 ("ok.cpp") = ("NEW") ∧
    (overwriteChangedFiles c8WriteOk c8FS c8Changed).1 = 1 :=
  ⟨(C8_overwrite_reports_failure_count c8WriteOk c8FS c8Changed).2.2 (by decide)
      (("ok.cpp"), ("NEW")) (by decide) (by decide),
   ((C8_overwrite_reports_failure_count c8WriteOk c8FS c8Changed).1).trans (by decide)⟩

/-- Claim C7: `visitChildren` is re-entrant.  Whatever a visitor does to its
client data — including invoking a nested `visitChildrenList` on another
cursor inside its body — the outer traversal's iteration is not corrupted:
as long as the visitor's returned signals are the function `f` of the visited
cursor, the outer traversal visits exactly the pre-order sequence (and Break
outcome) that the signal-only reference traversal `visitSignals f` visits,
while any nested traversal independently honors its own signals through its
own recursion. -/
theorem C7_visitChildren_reentrant {σ : Type}
    (f : CursorT → CXChildVisitResultM)
    (v : CursorT → σ → σ × CXChildVisitResultM)
    (hsig : ∀ c s, (v c s).2 = f c) :
    ∀ (ts : List CursorT) (s : σ),
      (visitChildrenList v ts s).2 = visitSignals f ts := by
  intro ts s
  induction ts, s using visitChildrenList.induct (v := v) with
  | case1 s => simp [visitChildrenList, visitSignals]
  | case2 k cs rest s p hp =>
    have hp' : (v (CursorT.node k cs) s).2 = CXChildVisitResultM.visitBreak := hp
    have hf : f (CursorT.node k cs) = CXChildVisitResultM.visitBreak :=
      (hsig (CursorT.node k cs) s).symm.trans hp'
    simp [visitChildrenList, visitSignals, hp', hf]
  | case3 k cs rest s p hp ih =>
    have hp' : (v (CursorT.node k cs) s).2 = CXChildVisitResultM.visitContinue := hp
    have hf : f (CursorT.node k cs) = CXChildVisitResultM.visitContinue :=
      (hsig (CursorT.node k cs) s).symm.trans hp'
    simp [visitChildrenList, visitSignals, hp', hf, ih]
  | case4 k cs rest s p hp r1 hb ihcs =>
    have hp' : (v (CursorT.node k cs) s).2 = CXChildVisitResultM.visitRecurse := hp
    have hf : f (CursorT.node k cs) = CXChildVisitResultM.visitRecurse :=
      (hsig (CursorT.node k cs) s).symm.trans hp'
    have hb' : (visitChildrenList v cs (v (CursorT.node k cs) s).1).2.2 = true := hb
    simp only [visitChildrenList, visitSignals, hp', hf]
    simp [← ihcs, hb']
  | case5 k cs rest s p hp r1 hnb ih1 ih2 ih3 =>
    have hp' : (v (CursorT.node k cs) s).2 = CXChildVisitResultM.visitRecurse := hp
    have hf : f (CursorT.node k cs) = CXChildVisitResultM.visitRecurse :=
      (hsig (CursorT.node k cs) s).symm.trans hp'
    have hnb' : (visitChildrenList v cs (v (CursorT.node k cs) s).1).2.2 = false := by
      simpa using hnb
    simp only [visitChildrenList, visitSignals, hp', hf]
    simp [← ih1, ← ih3, hnb']

/-- Concrete instance of claim C7, the `EvaluateChildExpression` scenario:
the outer visitor launches a nested traversal on the function declaration yet
the outer traversal visits exactly the signal-determined pre-order sequence,
and the nested traversal independently honors its own Recurse/Break signals,
ending with compound-statement count 1 after breaking. -/
theorem C7_visitChildren_witness :
    (visitChildrenList outerEvalVisitor evalFixtureTUChildren ((0 : Nat), false)).2 =
      visitSignals (fun _ => CXChildVisitResultM.visitContinue) evalFixtureTUChildren ∧
    (visitChildrenList outerEvalVisitor evalFixtureTUChildren ((0 : Nat), false)).1 =
      (1, true) ∧
    visitSignals (fun _ => CXChildVisitResultM.visitContinue) evalFixtureTUChildren =
      ([evalFixtureFuncDecl], false) :=
  ⟨C7_visitChildren_reentrant (fun _ => CXChildVisitResultM.visitContinue)
      outerEvalVisitor
      (fun c s => by
        by_cases h : c.kind = CXCursorKindM.functionDecl <;>
          simp [outerEvalVisitor, h])
      evalFixtureTUChildren ((0, false)),
   by
    simp [visitChildrenList, evalFixtureTUChildren, evalFixtureFuncDecl,
      outerEvalVisitor, innerEvalVisitor, CursorT.kind, CursorT.children],
   by
    simp [visitSignals, evalFixtureTUChildren, evalFixtureFuncDecl]⟩

end Spec2Proof
